import Mathlib

/-
Verification of the log-parser cog (`bot/cogs/parsers.py`) of the
Emerald Killfeed repository: the full-replay validator
(`validatelogparser`) and the reset surface (`resetlogparser`).

The regular-expression library lives outside the source in view (it is an
attribute of the external `log_parser` object); a log line is therefore
embedded by the outcome of `search` of each pattern on it: the captured
groups when the pattern matches, `none` otherwise.  Everything downstream
of the match outcomes — the elif classification chain, the tallies, the
`jq / j2 / d1 / d2` lifetime totals, the transient `player_states` dict,
the derived-count formulas and the reported embed fields — is translated
directly from the Python source.
-/

namespace EkfParsers

/-- Match outcomes of the six patterns the replay loop consults on one
(stripped) log line, in the order the elif chain tests them.
`queue_join` captures `(player_name, player_id)`; `player_joined` and
`disconnect_post_join` capture the player id; the mission patterns capture
the mission name; `airdrop_flying` captures nothing the loop uses. -/
structure Line where
  queue_join : Option (String × String)
  player_joined : Option String
  disconnect_post_join : Option String
  mission_ready : Option String
  mission_initial : Option String
  airdrop_flying : Bool
deriving Repr, DecidableEq

/-- The `validation_results` dictionary initialised at the top of
`validatelogparser`. -/
structure ValidationResults where
  queue_joins : Nat
  player_joins : Nat
  disconnects_post_join : Nat
  disconnects_pre_join : Nat
  missions_ready : Nat
  missions_initial : Nat
  airdrops_flying : Nat
  heli_crashes : Nat
  traders : Nat
  total_lines : Nat
deriving Repr, DecidableEq

/-- All entries of `validation_results` start at `0`. -/
def initResults : ValidationResults :=
  { queue_joins := 0, player_joins := 0, disconnects_post_join := 0
    disconnects_pre_join := 0, missions_ready := 0, missions_initial := 0
    airdrops_flying := 0, heli_crashes := 0, traders := 0, total_lines := 0 }

/-- The transient state of one `validatelogparser` call: the results
dictionary, the four lifetime totals `jq, j2, d1, d2`, and the
`player_states` dict mapping a player id to the stored state string
(`"QUEUED"`, `"JOINED"` or `"DISCONNECTED"`; absent = never seen). -/
structure ReplayState where
  results : ValidationResults
  jq : Nat
  j2 : Nat
  d1 : Nat
  d2 : Nat
  player_states : String → Option String

/-- Fresh state at the top of each `validatelogparser` call:
zero counters, empty `player_states` dict. -/
def initReplayState : ReplayState :=
  { results := initResults, jq := 0, j2 := 0, d1 := 0, d2 := 0
    player_states := fun _ => none }

/-- Predicate that `needle` is an initial segment of `hay`. -/
def listStarts : List Char → List Char → Bool
  | [], _ => true
  | _ :: _, [] => false
  | a :: as, b :: bs => a == b && listStarts as bs

/-- Predicate that `needle` occurs contiguously inside `hay`. -/
def listHasSub (needle : List Char) : List Char → Bool
  | [] => listStarts needle []
  | c :: rest => listStarts needle (c :: rest) || listHasSub needle rest

/-- Membership test of the Python code, lowercased mission name containing
the three characters m, i, s contiguously. -/
def hasMis (mission_name : String) : Bool :=
  listHasSub "mis".toList (mission_name.toList.map Char.toLower)

/-- One iteration of the replay loop of `validatelogparser`
(parsers.py lines 625-678): bump `total_lines`, then classify the line by
the first matching pattern of the elif chain and run that branch alone. -/
def processLine (s : ReplayState) (line : Line) : ReplayState :=
  let s := { s with results := { s.results with total_lines := s.results.total_lines + 1 } }
  match line.queue_join with
  | some g =>
      { s with
        results := { s.results with queue_joins := s.results.queue_joins + 1 }
        jq := s.jq + 1
        player_states := fun p => if p = g.2 then some "QUEUED" else s.player_states p }
  | none =>
    match line.player_joined with
    | some player_id =>
        { s with
          results := { s.results with player_joins := s.results.player_joins + 1 }
          j2 := s.j2 + 1
          player_states := fun p => if p = player_id then some "JOINED" else s.player_states p }
    | none =>
      match line.disconnect_post_join with
      | some player_id =>
          let s := { s with
            results := { s.results with
              disconnects_post_join := s.results.disconnects_post_join + 1 } }
          let s :=
            if s.player_states player_id = some "JOINED" then
              { s with d1 := s.d1 + 1 }
            else
              { s with d2 := s.d2 + 1 }
          { s with
            player_states := fun p =>
              if p = player_id then some "DISCONNECTED" else s.player_states p }
      | none =>
        match line.mission_ready with
        | some mission_name =>
            if hasMis mission_name then
              { s with results := { s.results with
                  missions_ready := s.results.missions_ready + 1 } }
            else s
        | none =>
          match line.mission_initial with
          | some mission_name =>
              if hasMis mission_name then
                { s with results := { s.results with
                    missions_initial := s.results.missions_initial + 1 } }
              else s
          | none =>
            if line.airdrop_flying then
              { s with results := { s.results with
                  airdrops_flying := s.results.airdrops_flying + 1 } }
            else s

/-- The replay loop over the whole file, started from the fresh state. -/
def replay (lines : List Line) : ReplayState :=
  lines.foldl processLine initReplayState

/-- Derived count `player_count = j2 - d1` (parsers.py line 681).  Python
integers are unbounded and signed, hence `Int`. -/
def player_count (s : ReplayState) : Int :=
  (s.j2 : Int) - (s.d1 : Int)

/-- Derived count `queue_count = jq - j2 - d2` (parsers.py line 682). -/
def queue_count (s : ReplayState) : Int :=
  (s.jq : Int) - (s.j2 : Int) - (s.d2 : Int)

/-- The figures `validatelogparser` reports back to the caller in the
result embed: the tallies it prints, the two derived counts, and the
three validation-status flags. `disconnects_pre_join` in the embed is
printed from the variable `d2`, not from the results dictionary. -/
structure ReplayReport where
  total_lines : Nat
  queue_joins : Nat
  player_joins : Nat
  disconnects_post_join : Nat
  disconnects_pre_join : Nat
  playerCount : Int
  queueCount : Int
  missions_ready : Nat
  missions_initial : Nat
  airdrops_flying : Nat
  patterns_working : Bool
  player_count_valid : Bool
  queue_count_valid : Bool
deriving Repr, DecidableEq

/-- Assembling the embed fields of `validatelogparser`
(parsers.py lines 684-723) from the final replay state. -/
def mkReport (s : ReplayState) : ReplayReport :=
  { total_lines := s.results.total_lines
    queue_joins := s.results.queue_joins
    player_joins := s.results.player_joins
    disconnects_post_join := s.results.disconnects_post_join
    disconnects_pre_join := s.d2
    playerCount := player_count s
    queueCount := queue_count s
    missions_ready := s.results.missions_ready
    missions_initial := s.results.missions_initial
    airdrops_flying := s.results.airdrops_flying
    patterns_working := decide (0 < s.results.queue_joins)
    player_count_valid := decide (0 ≤ player_count s)
    queue_count_valid := decide (0 ≤ queue_count s) }

/-- The whole `validatelogparser` command on the lines of the file. -/
def validatelogparser (lines : List Line) : ReplayReport :=
  mkReport (replay lines)

/-- The live, stored per-ServerKey state hanging off the log parser and
its connection parser, as touched by `resetlogparser`:
`last_log_position` and `file_states` on the log parser,
`player_states` and `server_stats` on the connection parser, and
`server_status` on the log parser.  Each is a dict keyed by the server
key string; the value types are irrelevant to the reset claims and stay
abstract. -/
structure LiveState (Pos FS PS SS St : Type) where
  last_log_position : String → Option Pos
  file_states : String → Option FS
  player_states : String → Option PS
  server_stats : String → Option SS
  server_status : String → Option St

/-- Removal of key `k` from a dict, the Python pop with default None. -/
def popKey {V : Type} (m : String → Option V) (k : String) : String → Option V :=
  fun x => if x = k then none else m x

/-- Key string of a server, guild id then underscore then server id
(parsers.py lines 513 and 544). -/
def server_key (guild_id : Nat) (server_id : String) : String :=
  toString guild_id ++ "_" ++ server_id

/-- The block of five `pop(server_key, None)` calls `resetlogparser`
runs for one server key (parsers.py lines 515-533 and 546-564). -/
def clearServerKey {Pos FS PS SS St : Type} (st : LiveState Pos FS PS SS St)
    (k : String) : LiveState Pos FS PS SS St :=
  { last_log_position := popKey st.last_log_position k
    file_states := popKey st.file_states k
    player_states := popKey st.player_states k
    server_stats := popKey st.server_stats k
    server_status := popKey st.server_status k }

/-- One entry of the `servers` list of the guild configuration; `_id` is the
string form of the stored id (the code compares the str of the stored id
against the argument and interpolates the id into the key). -/
structure Server where
  _id : String
  name : String
deriving Repr, DecidableEq

/-- What `resetlogparser` reports back to the caller. -/
inductive ResetOutcome
  | notConfigured
  | noServers
  | notFound (server_id : String)
  | success (reset_count : Nat)
deriving Repr, DecidableEq

/-- The `resetlogparser` command (parsers.py lines 480-577):
guild not configured and empty server list abort early; with a
`server_id` argument the first configured server whose `_id` equals it
has its key cleared (reset_count 1), an unmatched id reports not-found
with no mutation; with no `server_id` the key of every configured server is
cleared and reset_count is the number of servers. -/
def resetlogparser {Pos FS PS SS St : Type} (guild_id : Nat)
    (guild_config : Option (List Server)) (server_id : Option String)
    (st : LiveState Pos FS PS SS St) :
    LiveState Pos FS PS SS St × ResetOutcome :=
  match guild_config with
  | none => (st, ResetOutcome.notConfigured)
  | some servers =>
    if servers.isEmpty then (st, ResetOutcome.noServers)
    else
      match server_id with
      | some sid =>
        match servers.find? (fun srv => srv._id == sid) with
        | some _ => (clearServerKey st (server_key guild_id sid), ResetOutcome.success 1)
        | none => (st, ResetOutcome.notFound sid)
      | none =>
        (servers.foldl (fun acc srv => clearServerKey acc (server_key guild_id srv._id)) st,
         ResetOutcome.success servers.length)

/-- The `validatelogparser` command threaded through the live parser
state: its body initialises `validation_results`, `jq/j2/d1/d2` and its
own `player_states` table locally and reads only the lines of the file (and
the immutable pattern library); it never reads or writes
`last_log_position`, `file_states`, the connection-parser dicts
`player_states` and `server_stats`, or `server_status`. -/
def validateRun {Pos FS PS SS St : Type} (st : LiveState Pos FS PS SS St)
    (lines : List Line) : ReplayReport × LiveState Pos FS PS SS St :=
  (validatelogparser lines, st)

/-- All five per-key dicts of the live state hold no entry at key `k`. -/
def clearedAt {Pos FS PS SS St : Type} (st : LiveState Pos FS PS SS St)
    (k : String) : Prop :=
  st.last_log_position k = none ∧ st.file_states k = none ∧
  st.player_states k = none ∧ st.server_stats k = none ∧ st.server_status k = none

/-- Two live states agree, dict by dict, at key `k`. -/
def agreeAt {Pos FS PS SS St : Type} (st st2 : LiveState Pos FS PS SS St)
    (k : String) : Prop :=
  st.last_log_position k = st2.last_log_position k ∧
  st.file_states k = st2.file_states k ∧
  st.player_states k = st2.player_states k ∧
  st.server_stats k = st2.server_stats k ∧
  st.server_status k = st2.server_status k

/-- Concrete line on which only the player-join pattern matches. -/
def joinOnlyLine : Line :=
  { queue_join := none, player_joined := some "p1", disconnect_post_join := none
    mission_ready := none, mission_initial := none, airdrop_flying := false }

/-- Concrete line on which only the disconnect pattern matches. -/
def discOnlyLine : Line :=
  { queue_join := none, player_joined := none, disconnect_post_join := some "p1"
    mission_ready := none, mission_initial := none, airdrop_flying := false }

/-- Concrete line on which only the mission-ready pattern matches, with a
captured name that does contain the three characters m, i, s. -/
def missionMisLine : Line :=
  { queue_join := none, player_joined := none, disconnect_post_join := none
    mission_ready := some "GA_Settle_05_ChernyLog_mis1", mission_initial := none
    airdrop_flying := false }

/-- Concrete line on which only the mission-ready pattern matches, with a
captured name that lacks the three characters m, i, s. -/
def missionNoMisLine : Line :=
  { queue_join := none, player_joined := none, disconnect_post_join := none
    mission_ready := some "GA_Airport_01", mission_initial := none
    airdrop_flying := false }

/-- Concrete line on which both the queue-join and the player-join
patterns match, exercising rule precedence. -/
def queueAndJoinLine : Line :=
  { queue_join := some ("Njshh", "e1"), player_joined := some "e1"
    disconnect_post_join := none, mission_ready := none, mission_initial := none
    airdrop_flying := false }

/-- Concrete line on which no pattern matches. -/
def noMatchLine : Line :=
  { queue_join := none, player_joined := none, disconnect_post_join := none
    mission_ready := none, mission_initial := none, airdrop_flying := false }

/-- Concrete configured server for witnesses. -/
def witnessServer : Server := { _id := "7025", name := "Emerald EU" }

/-- Concrete live state, populated at every key, for witnesses. -/
def witnessLive : LiveState Nat Nat Nat Nat Nat :=
  { last_log_position := fun _ => some 5, file_states := fun _ => some 1
    player_states := fun _ => some 2, server_stats := fun _ => some 3
    server_status := fun _ => some 4 }

/-- The replay loop never touches the `disconnects_pre_join`,
`heli_crashes` and `traders` entries of the results dictionary. -/
theorem processLine_untouched_tallies (s : ReplayState) (l : Line) :
    (processLine s l).results.disconnects_pre_join =
      s.results.disconnects_pre_join ∧
    (processLine s l).results.heli_crashes = s.results.heli_crashes ∧
    (processLine s l).results.traders = s.results.traders := by
  rcases l with ⟨qj, pj, dc, mr, mi, af⟩
  cases qj <;> cases pj <;> cases dc <;> cases mr <;> cases mi <;> cases af <;>
    simp only [processLine] <;> (try split_ifs) <;> simp

/-- Folding the replay loop preserves the untouched tallies. -/
theorem foldl_untouched_tallies (lines : List Line) :
    ∀ s : ReplayState,
      ((lines.foldl processLine s).results.disconnects_pre_join =
        s.results.disconnects_pre_join) ∧
      ((lines.foldl processLine s).results.heli_crashes =
        s.results.heli_crashes) ∧
      ((lines.foldl processLine s).results.traders = s.results.traders) := by
  induction lines with
  | nil => intro s; exact ⟨rfl, rfl, rfl⟩
  | cons l rest ih =>
    intro s
    rw [List.foldl_cons]
    refine ⟨?_, ?_, ?_⟩
    · rw [(ih (processLine s l)).1, (processLine_untouched_tallies s l).1]
    · rw [(ih (processLine s l)).2.1, (processLine_untouched_tallies s l).2.1]
    · rw [(ih (processLine s l)).2.2, (processLine_untouched_tallies s l).2.2]

/-- C1: after the full-replay validator has processed all lines of a file,
the derived counts it reports satisfy playerCount = j2 - d1 and
queueCount = jq - j2 - d2, where jq, j2, d1, d2 are the raw lifetime
totals its replay state accumulated over the classified events. -/
theorem C1_derived_count_formulas (lines : List Line) :
    (validatelogparser lines).playerCount =
      ((replay lines).j2 : Int) - ((replay lines).d1 : Int) ∧
    (validatelogparser lines).queueCount =
      ((replay lines).jq : Int) - ((replay lines).j2 : Int) -
        ((replay lines).d2 : Int) :=
  ⟨rfl, rfl⟩

/-- C2: a disconnect event for a player whose stored state is JOINED
increments d1 and leaves d2 alone; a disconnect for a player in any other
prior state (no record, QUEUED, or already DISCONNECTED) increments d2
and leaves d1 alone; in both cases the stored state becomes
DISCONNECTED. -/
theorem C2_disconnect_classification (s : ReplayState) (l : Line)
    (player_id : String) (hq : l.queue_join = none)
    (hp : l.player_joined = none)
    (hd : l.disconnect_post_join = some player_id) :
    ((s.player_states player_id = some "JOINED" →
        (processLine s l).d1 = s.d1 + 1 ∧ (processLine s l).d2 = s.d2) ∧
      (s.player_states player_id ≠ some "JOINED" →
        (processLine s l).d2 = s.d2 + 1 ∧ (processLine s l).d1 = s.d1)) ∧
    (processLine s l).player_states player_id = some "DISCONNECTED" := by
  rcases l with ⟨qj, pj, dc, mr, mi, af⟩
  subst hq; subst hp; subst hd
  by_cases h : s.player_states player_id = some "JOINED" <;>
    simp [processLine, h]

/-- Witness for C2 at a concrete input: a disconnect for a player with no
prior record increments d2, leaves d1 at zero, and records the player as
DISCONNECTED. -/
theorem C2_disconnect_classification_witness :
    ((processLine initReplayState discOnlyLine).d2 =
        initReplayState.d2 + 1 ∧
      (processLine initReplayState discOnlyLine).d1 = initReplayState.d1) ∧
    (processLine initReplayState discOnlyLine).player_states "p1" =
      some "DISCONNECTED" := by
  have h := C2_disconnect_classification initReplayState discOnlyLine "p1"
    rfl rfl rfl
  exact ⟨h.1.2 (by simp [initReplayState]), h.2⟩

/-- C3 counterexample: on a file whose single line matches only the
player-join pattern, the computed queue count is negative, and the replay
reports it as -1 rather than clamping it to zero; the validity flag in
the report is false. -/
theorem C3_counterexample :
    queue_count (replay [joinOnlyLine]) = -1 ∧
    (validatelogparser [joinOnlyLine]).queueCount = -1 ∧
    (validatelogparser [joinOnlyLine]).queueCount ≠ 0 ∧
    (validatelogparser [joinOnlyLine]).queue_count_valid = false := by
  refine ⟨by decide, by decide, by decide, by decide⟩

/-- C3 amended: the replay reports the derived counts exactly as computed
by the formulas, without clamping; a negative value is surfaced through
the corresponding validity flag of the report being false, and the
replay still produces a full report. -/
theorem C3_no_clamp_validity_flag (lines : List Line) :
    (validatelogparser lines).queueCount = queue_count (replay lines) ∧
    (validatelogparser lines).playerCount = player_count (replay lines) ∧
    ((validatelogparser lines).queue_count_valid = false ↔
      queue_count (replay lines) < 0) ∧
    ((validatelogparser lines).player_count_valid = false ↔
      player_count (replay lines) < 0) := by
  refine ⟨rfl, rfl, ?_, ?_⟩ <;>
    simp [validatelogparser, mkReport, decide_eq_false_iff_not, not_le]

/-- C5: the validator is deterministic and independent of the stored
per-ServerKey live state: starting from any two live states it produces
the same report on the same lines, it leaves the live state untouched,
and its report is a function of the lines alone. -/
theorem C5_validator_state_independent {Pos FS PS SS St : Type}
    (st st2 : LiveState Pos FS PS SS St) (lines : List Line) :
    (validateRun st lines).1 = (validateRun st2 lines).1 ∧
    (validateRun st lines).2 = st ∧
    (validateRun st lines).1 = validatelogparser lines :=
  ⟨rfl, rfl, rfl⟩

/-- C8: the disconnects_pre_join entry of the results dictionary stays 0
over any file (it is initialised but never incremented in the replay
loop), and the pre-join disconnect figure the report carries is the
separate variable d2. -/
theorem C8_pre_join_tally_stays_zero (lines : List Line) :
    (replay lines).results.disconnects_pre_join = 0 ∧
    (validatelogparser lines).disconnects_pre_join = (replay lines).d2 :=
  ⟨(foldl_untouched_tallies lines initReplayState).1, rfl⟩

/-- C10: on a line classified as mission-ready or mission-initial, the
corresponding mission tally is incremented exactly when the captured
mission name contains the substring mis of its lowercased form; a
matching line whose captured name lacks it leaves both mission tallies
unchanged. -/
theorem C10_mission_mis_filter (s : ReplayState) (l : Line)
    (mission_name : String) (hq : l.queue_join = none)
    (hp : l.player_joined = none) (hd : l.disconnect_post_join = none) :
    (l.mission_ready = some mission_name →
      (processLine s l).results.missions_ready =
        (if hasMis mission_name then s.results.missions_ready + 1
          else s.results.missions_ready) ∧
      (processLine s l).results.missions_initial =
        s.results.missions_initial) ∧
    (l.mission_ready = none → l.mission_initial = some mission_name →
      (processLine s l).results.missions_initial =
        (if hasMis mission_name then s.results.missions_initial + 1
          else s.results.missions_initial) ∧
      (processLine s l).results.missions_ready = s.results.missions_ready) := by
  rcases l with ⟨qj, pj, dc, mr, mi, af⟩
  subst hq; subst hp; subst hd
  constructor
  · intro hmr
    subst hmr
    by_cases h : hasMis mission_name <;> simp [processLine, h]
  · intro hmr hmi
    subst hmr; subst hmi
    by_cases h : hasMis mission_name <;> simp [processLine, h]

/-- Witness for C10 at concrete inputs: a mission-ready line whose name
contains mis bumps the ready tally, and the same rule with a name lacking
mis leaves both mission tallies unchanged. -/
theorem C10_mission_mis_filter_witness :
    ((processLine initReplayState missionMisLine).results.missions_ready =
        initReplayState.results.missions_ready + 1 ∧
      (processLine initReplayState missionMisLine).results.missions_initial =
        initReplayState.results.missions_initial) ∧
    ((processLine initReplayState missionNoMisLine).results.missions_ready =
        initReplayState.results.missions_ready ∧
      (processLine initReplayState missionNoMisLine).results.missions_initial =
        initReplayState.results.missions_initial) := by
  have h1 := (C10_mission_mis_filter initReplayState missionMisLine
    "GA_Settle_05_ChernyLog_mis1" rfl rfl rfl).1 rfl
  have h2 := (C10_mission_mis_filter initReplayState missionNoMisLine
    "GA_Airport_01" rfl rfl rfl).1 rfl
  have hm1 : hasMis "GA_Settle_05_ChernyLog_mis1" = true := by decide
  have hm2 : hasMis "GA_Airport_01" = false := by decide
  refine ⟨⟨?_, h1.2⟩, ⟨?_, h2.2⟩⟩
  · rw [h1.1, hm1]; rfl
  · rw [h2.1, hm2]; rfl

/-- C4 counterexample: a line matched by the mission-ready rule (the
first and only matching rule of the chain) whose captured name lacks the
substring mis increments no event tally at all — contradicting that
exactly the first matching rule has its tally incremented. -/
theorem C4_counterexample :
    (validatelogparser [missionNoMisLine]).missions_ready = 0 ∧
    (validatelogparser [missionNoMisLine]).total_lines = 1 ∧
    (validatelogparser [missionNoMisLine]).queue_joins = 0 ∧
    (validatelogparser [missionNoMisLine]).player_joins = 0 ∧
    (validatelogparser [missionNoMisLine]).disconnects_post_join = 0 ∧
    (validatelogparser [missionNoMisLine]).missions_initial = 0 ∧
    (validatelogparser [missionNoMisLine]).airdrops_flying = 0 := by
  refine ⟨by decide, by decide, by decide, by decide, by decide, by decide,
    by decide⟩

/-- C4 amended: classification is first-match-wins over the fixed elif
chain (queue-join before player-join, then disconnect, mission-ready,
mission-initial, airdrop); only the branch of the first matching rule
runs, every line bumps total_lines, and at most the tally of that rule is
incremented — for the two mission rules only when the captured name
contains mis of its lowercased form; a line matching no rule changes
nothing but total_lines. -/
theorem C4_first_match_order (s : ReplayState) (l : Line) :
    (processLine s l).results.total_lines = s.results.total_lines + 1 ∧
    (l.queue_join.isSome →
      (processLine s l).results =
        { s.results with total_lines := s.results.total_lines + 1
                         queue_joins := s.results.queue_joins + 1 }) ∧
    (l.queue_join = none → l.player_joined.isSome →
      (processLine s l).results =
        { s.results with total_lines := s.results.total_lines + 1
                         player_joins := s.results.player_joins + 1 }) ∧
    (l.queue_join = none → l.player_joined = none →
      l.disconnect_post_join.isSome →
      (processLine s l).results =
        { s.results with
            total_lines := s.results.total_lines + 1
            disconnects_post_join := s.results.disconnects_post_join + 1 }) ∧
    (∀ mission_name, l.queue_join = none → l.player_joined = none →
      l.disconnect_post_join = none → l.mission_ready = some mission_name →
      (processLine s l).results =
        (if hasMis mission_name then
          { s.results with total_lines := s.results.total_lines + 1
                           missions_ready := s.results.missions_ready + 1 }
         else { s.results with total_lines := s.results.total_lines + 1 })) ∧
    (∀ mission_name, l.queue_join = none → l.player_joined = none →
      l.disconnect_post_join = none → l.mission_ready = none →
      l.mission_initial = some mission_name →
      (processLine s l).results =
        (if hasMis mission_name then
          { s.results with
              total_lines := s.results.total_lines + 1
              missions_initial := s.results.missions_initial + 1 }
         else { s.results with total_lines := s.results.total_lines + 1 })) ∧
    (l.queue_join = none → l.player_joined = none →
      l.disconnect_post_join = none → l.mission_ready = none →
      l.mission_initial = none → l.airdrop_flying = true →
      (processLine s l).results =
        { s.results with total_lines := s.results.total_lines + 1
                         airdrops_flying := s.results.airdrops_flying + 1 }) ∧
    (l.queue_join = none → l.player_joined = none →
      l.disconnect_post_join = none → l.mission_ready = none →
      l.mission_initial = none → l.airdrop_flying = false →
      (processLine s l).results =
        { s.results with total_lines := s.results.total_lines + 1 }) := by
  rcases l with ⟨qj, pj, dc, mr, mi, af⟩
  refine ⟨?_, ?_, ?_, ?_, ?_, ?_, ?_, ?_⟩
  · cases qj <;> cases pj <;> cases dc <;> cases mr <;> cases mi <;>
      cases af <;> simp only [processLine] <;> (try split_ifs) <;> simp
  · intro h
    match qj, h with
    | some g, _ => rfl
  · intro h1 h2
    subst h1
    match pj, h2 with
    | some pid, _ => rfl
  · intro h1 h2 h3
    subst h1; subst h2
    match dc, h3 with
    | some pid, _ =>
      simp only [processLine]
      split_ifs <;> rfl
  · intro mission_name h1 h2 h3 h4
    subst h1; subst h2; subst h3; subst h4
    by_cases h : hasMis mission_name <;> simp [processLine, h]
  · intro mission_name h1 h2 h3 h4 h5
    subst h1; subst h2; subst h3; subst h4; subst h5
    by_cases h : hasMis mission_name <;> simp [processLine, h]
  · intro h1 h2 h3 h4 h5 h6
    subst h1; subst h2; subst h3; subst h4; subst h5; subst h6
    rfl
  · intro h1 h2 h3 h4 h5 h6
    subst h1; subst h2; subst h3; subst h4; subst h5; subst h6
    rfl

/-- Witness for C4 at concrete inputs: on a line matching both queue-join
and player-join, the queue-join branch alone runs; on a line matching no
rule, only total_lines moves. -/
theorem C4_first_match_order_witness :
    ((processLine initReplayState queueAndJoinLine).results =
      { initReplayState.results with
          total_lines := initReplayState.results.total_lines + 1
          queue_joins := initReplayState.results.queue_joins + 1 }) ∧
    ((processLine initReplayState noMatchLine).results =
      { initReplayState.results with
          total_lines := initReplayState.results.total_lines + 1 }) :=
  ⟨(C4_first_match_order initReplayState queueAndJoinLine).2.1 rfl,
   (C4_first_match_order initReplayState noMatchLine).2.2.2.2.2.2.2
     rfl rfl rfl rfl rfl rfl⟩

/-- Clearing a key empties all five dicts at that key. -/
theorem clearServerKey_self {Pos FS PS SS St : Type}
    (st : LiveState Pos FS PS SS St) (k : String) :
    clearedAt (clearServerKey st k) k := by
  refine ⟨?_, ?_, ?_, ?_, ?_⟩ <;> simp [clearServerKey, popKey]

/-- Clearing a key leaves every other key alone. -/
theorem clearServerKey_other {Pos FS PS SS St : Type}
    (st : LiveState Pos FS PS SS St) (k k2 : String) (h : k2 ≠ k) :
    agreeAt (clearServerKey st k) st k2 := by
  refine ⟨?_, ?_, ?_, ?_, ?_⟩ <;> simp [clearServerKey, popKey, h]

/-- Agreement at a key is reflexive. -/
theorem agreeAt_refl {Pos FS PS SS St : Type}
    (st : LiveState Pos FS PS SS St) (k : String) : agreeAt st st k :=
  ⟨rfl, rfl, rfl, rfl, rfl⟩

/-- The clearing fold of the all-servers branch keeps a key empty once it
is empty. -/
theorem foldClear_keeps_cleared {Pos FS PS SS St : Type} (g : Nat)
    (servers : List Server) (k : String) :
    ∀ st : LiveState Pos FS PS SS St, clearedAt st k →
      clearedAt
        (servers.foldl (fun acc srv => clearServerKey acc (server_key g srv._id)) st)
        k := by
  induction servers with
  | nil => intro st h; exact h
  | cons a rest ih =>
    intro st h
    rw [List.foldl_cons]
    apply ih
    obtain ⟨h1, h2, h3, h4, h5⟩ := h
    refine ⟨?_, ?_, ?_, ?_, ?_⟩ <;>
      simp [clearServerKey, popKey, h1, h2, h3, h4, h5]

/-- The clearing fold of the all-servers branch empties the key of every
listed server. -/
theorem foldClear_clears_members {Pos FS PS SS St : Type} (g : Nat)
    (servers : List Server) (srv : Server) (h : srv ∈ servers) :
    ∀ st : LiveState Pos FS PS SS St,
      clearedAt
        (servers.foldl (fun acc s2 => clearServerKey acc (server_key g s2._id)) st)
        (server_key g srv._id) := by
  induction servers with
  | nil => cases h
  | cons a rest ih =>
    intro st
    rw [List.foldl_cons]
    rcases List.mem_cons.mp h with h1 | h2
    · subst h1
      exact foldClear_keeps_cleared g rest _ _ (clearServerKey_self st _)
    · exact ih h2 _

/-- The clearing fold of the all-servers branch leaves any key that is
the key of none of the listed servers unchanged. -/
theorem foldClear_frame {Pos FS PS SS St : Type} (g : Nat)
    (servers : List Server) (k : String)
    (h : ∀ srv ∈ servers, k ≠ server_key g srv._id) :
    ∀ st : LiveState Pos FS PS SS St,
      agreeAt
        (servers.foldl (fun acc srv => clearServerKey acc (server_key g srv._id)) st)
        st k := by
  induction servers with
  | nil => intro st; exact agreeAt_refl st k
  | cons a rest ih =>
    intro st
    rw [List.foldl_cons]
    have ha : k ≠ server_key g a._id := h a (List.mem_cons_self a rest)
    have hr := ih (fun srv hs => h srv (List.mem_cons_of_mem a hs))
      (clearServerKey st (server_key g a._id))
    obtain ⟨t1, t2, t3, t4, t5⟩ := hr
    refine ⟨?_, ?_, ?_, ?_, ?_⟩
    · rw [t1]; simp [clearServerKey, popKey, ha]
    · rw [t2]; simp [clearServerKey, popKey, ha]
    · rw [t3]; simp [clearServerKey, popKey, ha]
    · rw [t4]; simp [clearServerKey, popKey, ha]
    · rw [t5]; simp [clearServerKey, popKey, ha]

/-- C6: resetting one configured server clears its cursor
(last_log_position and file_states), its counters (server_stats), its
player records (player_states) and its status entry together in the one
operation, and resetting with no server specified applies the same
clearing to every server configured under the guild. -/
theorem C6_reset_clears_together {Pos FS PS SS St : Type} (guild_id : Nat)
    (servers : List Server) (st : LiveState Pos FS PS SS St)
    (hne : servers ≠ []) :
    (∀ sid : String, (servers.find? (fun srv => srv._id == sid)).isSome →
      (resetlogparser guild_id (some servers) (some sid) st).2 =
        ResetOutcome.success 1 ∧
      clearedAt (resetlogparser guild_id (some servers) (some sid) st).1
        (server_key guild_id sid)) ∧
    (∀ srv ∈ servers,
      clearedAt (resetlogparser guild_id (some servers) none st).1
        (server_key guild_id srv._id)) ∧
    (resetlogparser guild_id (some servers) none st).2 =
      ResetOutcome.success servers.length := by
  have h0 : servers.isEmpty = false := by
    cases servers with
    | nil => cases hne rfl
    | cons a t => rfl
  refine ⟨?_, ?_, ?_⟩
  · intro sid hfind
    obtain ⟨srv, hs⟩ := Option.isSome_iff_exists.mp hfind
    constructor
    · simp [resetlogparser, h0, hs]
    · have : (resetlogparser guild_id (some servers) (some sid) st).1 =
          clearServerKey st (server_key guild_id sid) := by
        simp [resetlogparser, h0, hs]
      rw [this]
      exact clearServerKey_self st _
  · intro srv hmem
    have : (resetlogparser guild_id (some servers) none st).1 =
        servers.foldl (fun acc s2 => clearServerKey acc (server_key guild_id s2._id)) st := by
      simp [resetlogparser, h0]
    rw [this]
    exact foldClear_clears_members guild_id servers srv hmem st
  · simp [resetlogparser, h0]

/-- Witness for C6 at a concrete input: resetting server 7025 of guild 99
clears all five dicts at key 99_7025, reports one server reset, and the
all-servers reset clears the same key. -/
theorem C6_reset_clears_together_witness :
    (resetlogparser 99 (some [witnessServer]) (some "7025") witnessLive).2 =
      ResetOutcome.success 1 ∧
    clearedAt
      (resetlogparser 99 (some [witnessServer]) (some "7025") witnessLive).1
      (server_key 99 "7025") ∧
    clearedAt (resetlogparser 99 (some [witnessServer]) none witnessLive).1
      (server_key 99 witnessServer._id) := by
  have h := C6_reset_clears_together 99 [witnessServer] witnessLive
    (by simp)
  have hf := h.1 "7025" rfl
  exact ⟨hf.1, hf.2, h.2.1 witnessServer (List.mem_singleton.mpr rfl)⟩

/-- C7: a reset naming a server id not configured in the guild reports
not-found and mutates nothing: the returned live state is the input
state. -/
theorem C7_not_found_no_mutation {Pos FS PS SS St : Type} (guild_id : Nat)
    (servers : List Server) (sid : String)
    (st : LiveState Pos FS PS SS St) (hne : servers ≠ [])
    (hfind : servers.find? (fun srv => srv._id == sid) = none) :
    (resetlogparser guild_id (some servers) (some sid) st).1 = st ∧
    (resetlogparser guild_id (some servers) (some sid) st).2 =
      ResetOutcome.notFound sid := by
  have h0 : servers.isEmpty = false := by
    cases servers with
    | nil => cases hne rfl
    | cons a t => rfl
  constructor <;> simp [resetlogparser, h0, hfind]

/-- Witness for C7 at a concrete input: resetting the unknown id 9999
reports not-found and returns the live state untouched. -/
theorem C7_not_found_no_mutation_witness :
    (resetlogparser 99 (some [witnessServer]) (some "9999") witnessLive).1 =
      witnessLive ∧
    (resetlogparser 99 (some [witnessServer]) (some "9999") witnessLive).2 =
      ResetOutcome.notFound "9999" :=
  C7_not_found_no_mutation 99 [witnessServer] "9999" witnessLive
    (by simp) rfl

/-- C9: a reset of one server touches only the key of that server — every
other key keeps its cursor position, file state, player states, server
stats and status — and a guild-wide reset touches only the keys of the
configured servers of that guild. -/
theorem C9_reset_frame {Pos FS PS SS St : Type} (guild_id : Nat)
    (guild_config : Option (List Server))
    (st : LiveState Pos FS PS SS St) :
    (∀ sid k, k ≠ server_key guild_id sid →
      agreeAt (resetlogparser guild_id guild_config (some sid) st).1 st k) ∧
    (∀ servers k, guild_config = some servers →
      (∀ srv ∈ servers, k ≠ server_key guild_id srv._id) →
      agreeAt (resetlogparser guild_id guild_config none st).1 st k) := by
  constructor
  · intro sid k hk
    cases guild_config with
    | none => exact agreeAt_refl st k
    | some servers =>
      cases h0 : servers.isEmpty with
      | true =>
        have : (resetlogparser guild_id (some servers) (some sid) st).1 = st := by
          simp [resetlogparser, h0]
        rw [this]; exact agreeAt_refl st k
      | false =>
        cases hf : servers.find? (fun srv => srv._id == sid) with
        | none =>
          have : (resetlogparser guild_id (some servers) (some sid) st).1 = st := by
            simp [resetlogparser, h0, hf]
          rw [this]; exact agreeAt_refl st k
        | some srv =>
          have : (resetlogparser guild_id (some servers) (some sid) st).1 =
              clearServerKey st (server_key guild_id sid) := by
            simp [resetlogparser, h0, hf]
          rw [this]
          exact clearServerKey_other st _ k hk
  · intro servers k hcfg hk
    subst hcfg
    cases h0 : servers.isEmpty with
    | true =>
      have : (resetlogparser guild_id (some servers) none st).1 = st := by
        simp [resetlogparser, h0]
      rw [this]; exact agreeAt_refl st k
    | false =>
      have : (resetlogparser guild_id (some servers) none st).1 =
          servers.foldl
            (fun acc srv => clearServerKey acc (server_key guild_id srv._id)) st := by
        simp [resetlogparser, h0]
      rw [this]
      exact foldClear_frame guild_id servers k hk st

/-- Witness for C9 at a concrete input: a single-server reset and a
guild-wide reset of guild 99 both leave the unrelated key 99_other
untouched. -/
theorem C9_reset_frame_witness :
    agreeAt
      (resetlogparser 99 (some [witnessServer]) (some "7025") witnessLive).1
      witnessLive "99_other" ∧
    agreeAt (resetlogparser 99 (some [witnessServer]) none witnessLive).1
      witnessLive "99_other" := by
  have h := C9_reset_frame 99 (some [witnessServer]) witnessLive
  refine ⟨h.1 "7025" "99_other" (by decide), ?_⟩
  exact h.2 [witnessServer] "99_other" rfl (by decide)

end EkfParsers
